import Mathlib

/-!
Shallow embedding of the form-automation engine of this repository
(src/form_automater.py and src/app.py) and proofs about it.

Python dicts are modelled as association lists with Python insertion
semantics (update in place when the key exists, append otherwise);
strings stay Lean strings; values that may be a Python str or bool are a
small sum type; code that can raise returns Except.  External
collaborators (Selenium page access, the OpenAI client, the anticaptcha
service, the csv and json libraries) are modelled at their call
boundaries: a DOM snapshot is a structure of element lists, the
generative call is an input describing its observable outcome, CSV
content is a list of typed rows.
-/

/-- Substring test on char lists: does pat occur contiguously in s. -/
def startsWithL : List Char → List Char → Bool
| [], _ => true
| _ :: _, [] => false
| p :: ps, c :: cs => decide (p = c) && startsWithL ps cs

/-- Helper for pyInStr: contiguous occurrence of pat inside s. -/
def isSubListL : List Char → List Char → Bool
| pat, [] => decide (pat = [])
| pat, c :: rest => startsWithL pat (c :: rest) || isSubListL pat rest

/-- Model of the Python expression pat in s (substring containment). -/
def pyInStr (pat s : String) : Bool := isSubListL pat.data s.data

/-- Model of Python str.lower, defined over the char list so that the
kernel can evaluate it. -/
def pyLower (s : String) : String := String.mk (s.data.map Char.toLower)

/-- Python truthiness of an optional string attribute: None and the
empty string are falsy. -/
def pyTruthyOptStr : Option String → Bool
| none => false
| some s => if s = "" then false else true

/-- Lookup in a Python-dict model (association list, unique keys). -/
def pyLookup {K V : Type} [DecidableEq K] : List (K × V) → K → Option V
| [], _ => none
| kv :: rest, k => if kv.1 = k then some kv.2 else pyLookup rest k

/-- Python dict assignment d[k] = v: update in place if the key exists,
append a new entry otherwise. -/
def pyInsert {K V : Type} [DecidableEq K] : List (K × V) → K → V → List (K × V)
| [], k, v => [(k, v)]
| kv :: rest, k, v => if kv.1 = k then (k, v) :: rest else kv :: pyInsert rest k v

/-- Python del d[k] on a dict with unique keys: drop the first entry
with that key; identity when the key is absent. -/
def pyDelete {K V : Type} [DecidableEq K] : List (K × V) → K → List (K × V)
| [], _ => []
| kv :: rest, k => if kv.1 = k then rest else kv :: pyDelete rest k

/-- A value resolved for a form field: Python str or bool. -/
inductive PyVal
| pyStr (s : String)
| pyBool (b : Bool)
deriving DecidableEq

/-- Model of Python str() on such a value. -/
def pyValStr : PyVal → String
| PyVal.pyStr s => s
| PyVal.pyBool b => if b then "True" else "False"

/-- Python truthiness of such a value. -/
def pyTruthyVal : PyVal → Bool
| PyVal.pyStr s => if s = "" then false else true
| PyVal.pyBool b => b

/-- Python equality between a declared option (a str or the None of a
radio without a value attribute) and a resolved value. -/
def pyOptValEq : Option String → PyVal → Bool
| some s, PyVal.pyStr t => decide (s = t)
| _, _ => false

/-- The Python exceptions the embedded code can raise. -/
inductive PyExn
| nameError (n : String)
| keyError (k : String)
| typeError
| noSuchElement
deriving DecidableEq

/-!
FieldCatalogExtractor: extract_form_data, src/form_automater.py lines
416-531.  A DOM snapshot is the lists of elements the function reads
through BeautifulSoup; each element carries the attributes the source
reads with .get (absent attribute = none).
-/

/-- One input element of the form snapshot: its type attribute and the
attributes extract_form_data reads. -/
structure InputEl where
  type : String
  name : Option String := none
  value : Option String := none
  ariaRequired : Option String := none
  maxlength : Option String := none
  placeholder : Option String := none
deriving DecidableEq

/-- One select element: its name, aria-required, and the raw visible
texts of its option children. -/
structure SelectEl where
  name : Option String := none
  ariaRequired : Option String := none
  optionTexts : List String := []
deriving DecidableEq

/-- One textarea element. -/
structure TextareaEl where
  name : Option String := none
  ariaRequired : Option String := none
deriving DecidableEq

/-- The part of a form DOM snapshot that extract_form_data reads. -/
structure FormSnapshot where
  inputs : List InputEl := []
  selects : List SelectEl := []
  textareas : List TextareaEl := []
deriving DecidableEq

/-- One entry of the extracted catalog, covering every per-kind dict
shape the source builds; keys absent in a given shape keep their
Python .get default (none / []). Select options are stored as some,
radio options keep the optional value attribute, mirroring the lists
the source builds. -/
structure FieldSpec where
  type : String
  required : Bool := false
  max_length : Option String := none
  placeholder : Option String := none
  options : List (Option String) := []
  value : Option (Option String) := none
  purpose : Option String := none
deriving DecidableEq

/-- The catalog dict: Python dict keyed by the name attribute, which
the checkbox branch of the source can leave as None. -/
abbrev FormData := List (Option String × FieldSpec)

/-- Model of the aria-required comparison of the source: the attribute
equals the string true. -/
def ariaB (o : Option String) : Bool :=
  match o with
  | some s => decide (s = "true")
  | none => false

/-- Name test of the captcha branch for textareas, lines 505: the
lowered name contains captcha or g-recaptcha-response. -/
def isCaptchaName (n : String) : Bool :=
  pyInStr "captcha" (pyLower n) || pyInStr "g-recaptcha-response" (pyLower n)

/-- Name test of the agreement branch for checkboxes, line 486. -/
def isAgreementName (n : String) : Bool :=
  pyInStr "agree" (pyLower n) || pyInStr "consent" (pyLower n) || pyInStr "同意" n

/-- Lines 431-445: text, email and tel inputs; entry only under a
truthy name. -/
def textInputStep (d : FormData) (el : InputEl) : FormData :=
  match el.name with
  | some n =>
    if n = "" then d
    else pyInsert d (some n)
      { type := el.type, required := ariaB el.ariaRequired,
        max_length := el.maxlength, placeholder := el.placeholder }
  | none => d

/-- Lines 448-458: select elements; options are the stripped non-empty
visible texts; entry only under a truthy name. -/
def selectStep (d : FormData) (el : SelectEl) : FormData :=
  match el.name with
  | some n =>
    if n = "" then d
    else pyInsert d (some n)
      { type := "select", required := ariaB el.ariaRequired,
        options := ((el.optionTexts.map String.trim).filter (fun s => decide (s ≠ ""))).map some }
  | none => d

/-- Lines 461-475: radio buttons grouped by shared name; required comes
from the first radio of the group; option values (possibly None) are
appended in DOM order. -/
def radioGroupStep (g : FormData) (el : InputEl) : FormData :=
  match el.name with
  | some n =>
    if n = "" then g
    else
      match pyLookup g (some n) with
      | some fs => pyInsert g (some n) { fs with options := fs.options ++ [el.value] }
      | none => pyInsert g (some n)
          { type := "radio", required := ariaB el.ariaRequired, options := [el.value] }
  | none => g

/-- Lines 479-498: checkboxes.  The agreement branch requires a truthy
name, but the else branch inserts unconditionally, so a checkbox
without a name attribute creates an entry keyed None. -/
def checkboxStep (d : FormData) (el : InputEl) : FormData :=
  if pyTruthyOptStr el.name &&
      (match el.name with | some n => isAgreementName n | none => false) then
    pyInsert d el.name
      { type := "checkbox", required := ariaB el.ariaRequired,
        value := some el.value, purpose := some "agreement" }
  else
    pyInsert d el.name
      { type := "checkbox", required := ariaB el.ariaRequired, value := some el.value }

/-- Lines 501-516: textareas; a truthy name matching the captcha
pattern is classified captcha with required true, else a truthy name
gives a textarea entry. -/
def textareaStep (d : FormData) (el : TextareaEl) : FormData :=
  if pyTruthyOptStr el.name &&
      (match el.name with | some n => isCaptchaName n | none => false) then
    pyInsert d el.name { type := "captcha", required := true }
  else
    match el.name with
    | some n =>
      if n = "" then d
      else pyInsert d (some n) { type := "textarea", required := ariaB el.ariaRequired }
    | none => d

/-- extract_form_data, lines 416-519: the catalog dict built phase by
phase in source order over the snapshot (text-like inputs, selects,
radio groups merged by dict.update, checkboxes, textareas). -/
def extract_form_data (snap : FormSnapshot) : FormData :=
  let d : FormData := []
  let d := (snap.inputs.filter
    (fun el => decide (el.type = "text" ∨ el.type = "email" ∨ el.type = "tel"))).foldl textInputStep d
  let d := snap.selects.foldl selectStep d
  let radioGroups := (snap.inputs.filter (fun el => decide (el.type = "radio"))).foldl radioGroupStep []
  let d := radioGroups.foldl (fun d2 kv => pyInsert d2 kv.1 kv.2) d
  let d := (snap.inputs.filter (fun el => decide (el.type = "checkbox"))).foldl checkboxStep d
  (snap.textareas.foldl textareaStep d)

/-!
MappingStore: load_input_mappings (lines 339-367) and
save_input_mapping (lines 369-410).  The CSV file is modelled as the
list of its data rows (DictReader consumes the header); every cell is a
string, as csv yields.
-/

/-- One data row of input_mapping.csv, in the column set both functions
use. -/
structure CsvRow where
  id : String := ""
  companyName : String := ""
  companyId : String := ""
  type : String := ""
  name : String := ""
  option : String := ""
  value : String := ""
  required : String := ""
  max_length : String := ""
  placeholder : String := ""
deriving DecidableEq

/-- One field_info dict built by load_input_mappings, lines 354-363. -/
structure FieldInfo where
  companyId : String := ""
  type : String := ""
  name : String := ""
  option : String := ""
  value : String := ""
  required : Bool := false
  max_length : String := ""
  placeholder : String := ""
deriving DecidableEq

/-- Lines 354-363: one CSV row to one field_info dict; required is
parsed by lowering and comparing with the string true. -/
def rowToFieldInfo (r : CsvRow) : FieldInfo :=
  { companyId := r.companyId, type := r.type, name := r.name,
    option := r.option, value := r.value,
    required := decide (pyLower r.required = "true"),
    max_length := r.max_length, placeholder := r.placeholder }

/-- The mappings dict: company name to the ordered list of its loaded
records. -/
abbrev Mappings := List (String × List FieldInfo)

/-- Lines 364-366: append a record under its company key, creating the
key at first sight. -/
def addMapping : Mappings → String → FieldInfo → Mappings
| [], c, fi => [(c, [fi])]
| kv :: rest, c, fi =>
  if kv.1 = c then (c, kv.2 ++ [fi]) :: rest else kv :: addMapping rest c fi

/-- load_input_mappings, lines 339-367: fold every row of the file into
the mappings dict in file order; a missing file is the empty row
list. -/
def load_input_mappings (rows : List CsvRow) : Mappings :=
  rows.foldl (fun m r => addMapping m r.companyName (rowToFieldInfo r)) []

/-- The list a loaded mappings dict holds under a company, empty when
the company is absent. -/
def mLookup (m : Mappings) (c : String) : List FieldInfo :=
  (pyLookup m c).getD []

/-- One entry of the generate_item list built by generate_form_input,
lines 638-646. -/
structure GenItem where
  type : String
  name : String
  option : String
  value : PyVal
  required : Bool
  max_length : Option String := none
  placeholder : Option String := none
deriving DecidableEq

/-- save_input_mapping, lines 369-410: the data rows appended to the
file, one per generated item; required is serialized through str() as
True or False, falsy max_length and placeholder become the empty
string. -/
def save_input_mapping (generate_item : List GenItem)
    (company_id company_name user_id : String) : List CsvRow :=
  generate_item.map (fun g =>
    { id := user_id, companyName := company_name, companyId := company_id,
      type := g.type, name := g.name, option := g.option,
      value := pyValStr g.value,
      required := if g.required then "True" else "False",
      max_length := match g.max_length with
        | none => ""
        | some s => if s = "" then "" else s,
      placeholder := match g.placeholder with
        | none => ""
        | some s => s })

/-!
InputSynthesizer: generate_form_input, lines 537-664.  The single
generative round trip is an input describing its observable outcome:
the call raised, the answer held no JSON block (re.search), json.loads
raised, or a JSON object parsed to a key-value list.  The request the
function issues (the ai_input_needed dict the prompt embeds) is exposed
in the result so that request-freeness and field exclusion are
statable.
-/

/-- Observable outcome of the OpenAI round trip of lines 603-623. -/
inductive AIOutcome
| callFailed
| noJsonMatch
| jsonDecodeError
| parsed (kvs : List (String × PyVal))
deriving DecidableEq

/-- The loop over the parsed response, lines 624-648: skip keys already
bound, bind the value, read the field spec from the catalog (a missing
key raises KeyError), compute the unselected options and join them
(joining a None option value raises TypeError), and append one
generate_item entry. -/
def processAI (form_data : FormData) :
    List (String × PyVal) → List (String × PyVal) → List GenItem →
    Except PyExn (List (String × PyVal) × List GenItem)
| [], gi, items => Except.ok (gi, items)
| (fn, v) :: rest, gi, items =>
  if (pyLookup gi fn).isSome then processAI form_data rest gi items
  else
    let gi2 := pyInsert gi fn v
    match pyLookup form_data (some fn) with
    | none => Except.error (PyExn.keyError fn)
    | some fs =>
      let notSel := fs.options.filter (fun opt => !(pyOptValEq opt v))
      if notSel = [] then
        processAI form_data rest gi2 (items ++
          [{ type := fs.type, name := fn, option := "", value := v,
             required := fs.required, max_length := fs.max_length,
             placeholder := fs.placeholder }])
      else if notSel.any Option.isNone then Except.error PyExn.typeError
      else
        processAI form_data rest gi2 (items ++
          [{ type := fs.type, name := fn,
             option := String.intercalate ", " (notSel.filterMap id), value := v,
             required := fs.required, max_length := fs.max_length,
             placeholder := fs.placeholder }])

/-- The four returned values of generate_form_input plus the generation
request it issued (none when no generative call is made). -/
structure GenResult where
  generated_input : Option (List (String × PyVal))
  field_sources : List (String × String)
  generate_status : String
  generate_item : Option (List GenItem)
  aiRequest : Option FormData
deriving DecidableEq

/-- generate_form_input, lines 537-664: delete the key named exactly
g-recaptcha-response; on a cache hit bind every cached record and
return with no generative call; otherwise bind a truthy
inquiry_content under the fixed key inquiry_content, send every
catalog field not named inquiry_content to generation, and translate
the outcome of the round trip (any exception, including the KeyError
of an unknown response key, lands in the outer handler and yields
input_generation_failed with None results). -/
def generate_form_input (form_data0 : FormData) (existing_mappings : Mappings)
    (company_name : String) (inquiry_content : Option String)
    (ai : AIOutcome) : GenResult :=
  let form_data := pyDelete form_data0 (some "g-recaptcha-response")
  match pyLookup existing_mappings company_name with
  | some recs =>
    { generated_input :=
        some (recs.foldl (fun d r => pyInsert d r.name (PyVal.pyStr r.value)) []),
      field_sources := recs.foldl (fun d r => pyInsert d r.name "CSVからのマッピング") [],
      generate_status := "input_from_existing_mapping",
      generate_item := some [],
      aiRequest := none }
  | none =>
    let gi0 : List (String × PyVal) :=
      if pyTruthyOptStr inquiry_content then
        pyInsert [] "inquiry_content" (PyVal.pyStr (inquiry_content.getD ""))
      else []
    let srcs0 : List (String × String) :=
      if pyTruthyOptStr inquiry_content then
        pyInsert [] "inquiry_content" "CSVからの入力"
      else []
    let ai_input_needed :=
      form_data.filter (fun kv => decide (kv.1 ≠ some "inquiry_content"))
    if ai_input_needed = [] then
      { generated_input := some gi0, field_sources := srcs0,
        generate_status := "all_fill_from_csv", generate_item := none,
        aiRequest := none }
    else
      match ai with
      | AIOutcome.parsed kvs =>
        match processAI form_data kvs gi0 [] with
        | Except.ok (gi, items) =>
          { generated_input := some gi, field_sources := srcs0,
            generate_status := "all_input_from_ai", generate_item := some items,
            aiRequest := some ai_input_needed }
        | Except.error _ =>
          { generated_input := none, field_sources := srcs0,
            generate_status := "input_generation_failed", generate_item := none,
            aiRequest := some ai_input_needed }
      | _ =>
        { generated_input := none, field_sources := srcs0,
          generate_status := "input_generation_failed", generate_item := none,
          aiRequest := some ai_input_needed }

/-!
SubmissionStateMachine fill step: fill_form, lines 730-823.  The live
page is a state of element collections and their values; each resolved
field dispatches a kind-specific action.  Element waits that time out
and the NoSuchElementException of the checkbox branch are caught by
the source and skip the field; the NoSuchElementException of
select_by_visible_text is not caught and aborts the run.  The trailing
handle_recaptcha delegation is an external round trip that touches
only the hidden captcha field, not the elements modelled here.
-/

/-- The live page as fill_form sees it: which elements exist and what
state they hold. -/
structure PageState where
  textEls : List String := []
  textValues : List (String × String) := []
  selectEls : List (String × List String) := []
  selectChoices : List (String × String) := []
  radioEls : List (String × List String) := []
  radioChoices : List (String × String) := []
  checkboxes : List (String × Bool) := []
deriving DecidableEq

/-- One iteration of the fill loop, lines 733-814: skip a field absent
from the catalog; dispatch on the catalog type; an agreement checkbox
is clicked only when unselected, any other checkbox is toggled to the
truthiness of its value. -/
def fillStep (fd : FormData) (st : PageState) (fn : String) (v : PyVal) :
    Except PyExn PageState :=
  match pyLookup fd (some fn) with
  | none => Except.ok st
  | some fs =>
    if fs.type = "text" ∨ fs.type = "email" ∨ fs.type = "tel" then
      Except.ok (if fn ∈ st.textEls then
        { st with textValues := pyInsert st.textValues fn (pyValStr v) } else st)
    else if fs.type = "select" then
      match pyLookup st.selectEls fn with
      | none => Except.ok st
      | some opts =>
        if pyValStr v ∈ opts then
          Except.ok { st with selectChoices := pyInsert st.selectChoices fn (pyValStr v) }
        else Except.error PyExn.noSuchElement
    else if fs.type = "radio" then
      match pyLookup st.radioEls fn with
      | none => Except.ok st
      | some vals =>
        if pyValStr v ∈ vals then
          Except.ok { st with radioChoices := pyInsert st.radioChoices fn (pyValStr v) }
        else Except.ok st
    else if fs.type = "checkbox" then
      match pyLookup st.checkboxes fn with
      | none => Except.ok st
      | some sel =>
        if fs.purpose = some "agreement" then
          Except.ok (if sel then st
            else { st with checkboxes := pyInsert st.checkboxes fn true })
        else
          Except.ok (if pyTruthyVal v && !sel then
              { st with checkboxes := pyInsert st.checkboxes fn true }
            else if !(pyTruthyVal v) && sel then
              { st with checkboxes := pyInsert st.checkboxes fn false }
            else st)
    else if fs.type = "textarea" then
      Except.ok (if fn ∈ st.textEls then
        { st with textValues := pyInsert st.textValues fn (pyValStr v) } else st)
    else Except.ok st

/-- The fill loop of fill_form over the resolved inputs, in dict order;
returns the page reached and the uncaught exception if one aborted the
loop. -/
def fill_form (fd : FormData) :
    List (String × PyVal) → PageState → PageState × Option PyExn
| [], st => (st, none)
| (fn, v) :: rest, st =>
  match fillStep fd st fn v with
  | Except.error e => (st, some e)
  | Except.ok st2 => fill_form fd rest st2

/-!
BatchCoordinator: the result-collection loop of submit_forms,
src/app.py lines 90-116.  Each submitted future either yields a task
result or re-raises the worker exception when .result() is called.
The except branch builds a synthetic error result whose timestamp
field evaluates the module-global name time; evaluating a name absent
from the module globals raises NameError.
-/

/-- One collected task result, in the fields the claims speak about. -/
structure TaskResult where
  status : String := ""
  status_message : String := ""
deriving DecidableEq

/-- The module-level names bound in src/app.py: the imports of lines
3-22 and the module definitions, the namespace in which the except
branch of lines 104-115 runs. -/
def appPyModuleGlobals : List String :=
  ["Flask", "request", "jsonify", "os", "pd", "logging",
   "ProcessPoolExecutor", "as_completed", "partial", "load_dotenv", "uuid",
   "verify_columns", "load_input_mappings", "save_input_mapping",
   "extract_form_data", "generate_form_input", "handle_recaptcha",
   "fill_form", "click_submit_button", "check_submission_status",
   "check_form_submission_success", "add_result", "summarize_results",
   "save_results_to_json", "save_results_to_csv", "detect_captcha",
   "scroll_into_view", "fill_input_field", "find_and_click_submit",
   "submit_contact_form", "find_contact_info", "process_company",
   "app", "openai_api_key", "anticaptcha_api_key", "USER_ID",
   "submit_forms", "index"]

/-- Lines 105-115: the synthetic error result the except branch builds;
its first field calls time.strftime, so the branch raises NameError
unless the name time is a module global. -/
def buildSyntheticResult (e : String) : Except PyExn TaskResult :=
  if "time" ∈ appPyModuleGlobals then
    Except.ok { status := "error",
                status_message := "並列処理中にエラーが発生しました: " ++ e }
  else Except.error (PyExn.nameError "time")

/-- Lines 101-115: the as_completed collection loop; a future that
yields is appended, a future that raised goes through the except
branch, and an exception escaping that branch aborts the loop. -/
def collectResults : List (Except String TaskResult) → Except PyExn (List TaskResult)
| [] => Except.ok []
| Except.ok r :: rest => (collectResults rest).map (fun l => r :: l)
| Except.error e :: rest =>
  match buildSyntheticResult e with
  | Except.error exn => Except.error exn
  | Except.ok r => (collectResults rest).map (fun l => r :: l)


/-!
Generic lemmas about the Python-dict model.
-/

/-- Left-biased choice between optional values. -/
def optOr {V : Type} : Option V → Option V → Option V
| some v, _ => some v
| none, o => o

theorem optOr_none_right {V : Type} (x : Option V) : optOr x none = x := by
  cases x <;> rfl

theorem optOr_assoc {V : Type} (x y z : Option V) :
    optOr (optOr x y) z = optOr x (optOr y z) := by
  cases x <;> rfl

theorem pyLookup_pyInsert {K V : Type} [DecidableEq K] (d : List (K × V)) (k k2 : K) (v : V) :
    pyLookup (pyInsert d k v) k2 = if k2 = k then some v else pyLookup d k2 := by
  induction d with
  | nil =>
    simp only [pyInsert, pyLookup]
    by_cases h : k = k2
    · rw [if_pos h, if_pos h.symm]
    · rw [if_neg h, if_neg (fun he => h he.symm)]
  | cons kv rest ih =>
    simp only [pyInsert]
    by_cases hk : kv.1 = k
    · rw [if_pos hk]
      simp only [pyLookup]
      by_cases h2 : k = k2
      · rw [if_pos h2, if_pos h2.symm]
      · rw [if_neg h2, if_neg (fun he => h2 he.symm),
            if_neg (fun he : kv.1 = k2 => h2 (hk.symm.trans he))]
    · rw [if_neg hk]
      simp only [pyLookup]
      by_cases h2 : kv.1 = k2
      · rw [if_pos h2, if_pos h2, if_neg (fun he : k2 = k => hk (h2.trans he))]
      · rw [if_neg h2, if_neg h2, ih]

theorem pyLookup_none_of_all_ne {K V : Type} [DecidableEq K] (d : List (K × V)) (k : K)
    (h : ∀ kv ∈ d, kv.1 ≠ k) : pyLookup d k = none := by
  induction d with
  | nil => rfl
  | cons kv rest ih =>
    have h1 : kv.1 ≠ k := h kv (List.mem_cons_self kv rest)
    simp only [pyLookup, if_neg h1]
    exact ih (fun kv2 hm => h kv2 (List.mem_cons_of_mem kv hm))

theorem pyLookup_none_of_not_mem {K V : Type} [DecidableEq K] (d : List (K × V)) (k : K)
    (h : k ∉ d.map Prod.fst) : pyLookup d k = none := by
  refine pyLookup_none_of_all_ne d k (fun kv hm he => h ?_)
  exact he ▸ List.mem_map_of_mem Prod.fst hm

theorem pyLookup_pyDelete_self {K V : Type} [DecidableEq K] (d : List (K × V)) (k : K)
    (hnd : (d.map Prod.fst).Nodup) : pyLookup (pyDelete d k) k = none := by
  induction d with
  | nil => rfl
  | cons kv rest ih =>
    rw [List.map_cons, List.nodup_cons] at hnd
    by_cases hk : kv.1 = k
    · simp only [pyDelete, if_pos hk]
      exact pyLookup_none_of_not_mem rest k (hk ▸ hnd.1)
    · simp only [pyDelete, if_neg hk, pyLookup, if_neg hk]
      exact ih hnd.2

theorem pyLookup_filter_none {K V : Type} [DecidableEq K] (d : List (K × V)) (k : K)
    (p : K × V → Bool) (h : pyLookup d k = none) : pyLookup (d.filter p) k = none := by
  induction d with
  | nil => rfl
  | cons kv rest ih =>
    by_cases hk : kv.1 = k
    · simp [pyLookup, hk] at h
    · simp only [pyLookup, if_neg hk] at h
      by_cases hp : p kv
      · simp only [List.filter_cons, hp, if_pos, pyLookup, if_neg hk]
        exact ih h
      · simp only [List.filter_cons, hp, Bool.false_eq_true, if_false]
        exact ih h

/-- The value of the last entry of the list carrying a given key, the
value that survives folding the list into a dict. -/
def lastVal {K V : Type} [DecidableEq K] : List (K × V) → K → Option V
| [], _ => none
| kv :: rest, k => optOr (lastVal rest k) (if kv.1 = k then some kv.2 else none)

theorem pyLookup_foldl_pyInsert {K V : Type} [DecidableEq K] (l : List (K × V))
    (d0 : List (K × V)) (k : K) :
    pyLookup (l.foldl (fun d kv => pyInsert d kv.1 kv.2) d0) k =
      optOr (lastVal l k) (pyLookup d0 k) := by
  induction l generalizing d0 with
  | nil => rfl
  | cons kv rest ih =>
    simp only [List.foldl_cons, lastVal]
    rw [ih, pyLookup_pyInsert, optOr_assoc]
    cases lastVal rest k with
    | some v => rfl
    | none =>
      simp only [optOr]
      by_cases hk : kv.1 = k
      · rw [if_pos hk, if_pos hk.symm]
      · rw [if_neg hk, if_neg (fun he => hk he.symm)]

theorem lastVal_none_of_not_mem {K V : Type} [DecidableEq K] (l : List (K × V)) (k : K)
    (h : k ∉ l.map Prod.fst) : lastVal l k = none := by
  induction l with
  | nil => rfl
  | cons kv rest ih =>
    rw [List.map_cons, List.mem_cons] at h
    push_neg at h
    have h1 : kv.1 ≠ k := fun he => h.1 he.symm
    simp only [lastVal, ih h.2, if_neg h1]
    rfl

theorem lastVal_of_mem_nodup {K V : Type} [DecidableEq K] (l : List (K × V)) (k : K) (v : V)
    (hnd : (l.map Prod.fst).Nodup) (hm : (k, v) ∈ l) : lastVal l k = some v := by
  induction l with
  | nil => cases hm
  | cons kv rest ih =>
    rw [List.map_cons, List.nodup_cons] at hnd
    rcases List.mem_cons.mp hm with he | hr
    · have hk1 : kv.1 = k := by rw [← he]
      have hv : kv.2 = v := by rw [← he]
      have hnm : k ∉ rest.map Prod.fst := hk1 ▸ hnd.1
      simp only [lastVal, lastVal_none_of_not_mem rest k hnm, if_pos hk1, hv]
      rfl
    · simp only [lastVal, ih hnd.2 hr]
      rfl

theorem lastVal_isSome_mem {K V : Type} [DecidableEq K] (l : List (K × V)) (k : K) (v : V)
    (h : lastVal l k = some v) : k ∈ l.map Prod.fst := by
  by_contra hn
  rw [lastVal_none_of_not_mem l k hn] at h
  cases h

theorem lastVal_append {K V : Type} [DecidableEq K] (a b : List (K × V)) (k : K) :
    lastVal (a ++ b) k = optOr (lastVal b k) (lastVal a k) := by
  induction a with
  | nil => rw [List.nil_append, lastVal, optOr_none_right]
  | cons kv rest ih =>
    rw [List.cons_append, lastVal, ih, lastVal, ← optOr_assoc]

/-!
Lemmas about the MappingStore model.
-/

theorem mLookup_addMapping (m : Mappings) (c2 : String) (fi : FieldInfo) (c : String) :
    mLookup (addMapping m c2 fi) c =
      if c2 = c then mLookup m c ++ [fi] else mLookup m c := by
  induction m with
  | nil =>
    by_cases h : c2 = c <;> simp [addMapping, mLookup, pyLookup, h]
  | cons kv rest ih =>
    by_cases hk : kv.1 = c2
    · simp only [addMapping, if_pos hk]
      by_cases h : c2 = c
      · simp [mLookup, pyLookup, h, hk.trans h]
      · have : kv.1 ≠ c := fun he => h ((hk.symm.trans he))
        simp [mLookup, pyLookup, h, this]
    · simp only [addMapping, if_neg hk]
      by_cases hkc : kv.1 = c
      · have : c2 ≠ c := fun he => hk (hkc.trans he.symm)
        simp [mLookup, pyLookup, hkc, this]
      · simp only [mLookup, pyLookup, if_neg hkc]
        have := ih
        simp only [mLookup] at this
        rw [this]

theorem mLookup_load_foldl (rows : List CsvRow) (m0 : Mappings) (c : String) :
    mLookup (rows.foldl (fun m r => addMapping m r.companyName (rowToFieldInfo r)) m0) c =
      mLookup m0 c ++
        ((rows.filter (fun r => decide (r.companyName = c))).map rowToFieldInfo) := by
  induction rows generalizing m0 with
  | nil => simp
  | cons r rest ih =>
    simp only [List.foldl_cons]
    rw [ih, mLookup_addMapping]
    by_cases h : r.companyName = c
    · simp [List.filter_cons, h]
    · simp [List.filter_cons, h]

/-- load_input_mappings keeps every row of the file under its company
key, in file order, with no rewriting and no deduplication. -/
theorem mLookup_load (rows : List CsvRow) (c : String) :
    mLookup (load_input_mappings rows) c =
      (rows.filter (fun r => decide (r.companyName = c))).map rowToFieldInfo := by
  rw [load_input_mappings, mLookup_load_foldl]
  rfl

/-!
Lemmas about the response-processing loop.
-/

theorem processAI_ok_keys (fd : FormData) (kvs : List (String × PyVal)) :
    ∀ gi items p, processAI fd kvs gi items = Except.ok p →
    ∀ fn v, (fn, v) ∈ kvs →
      (pyLookup gi fn).isSome = true ∨ (pyLookup fd (some fn)).isSome = true := by
  induction kvs with
  | nil => intro gi items p h fn v hm; cases hm
  | cons kv rest ih =>
    obtain ⟨f0, v0⟩ := kv
    intro gi items p h fn v hm
    simp only [processAI] at h
    by_cases h0 : (pyLookup gi f0).isSome = true
    · rw [if_pos h0] at h
      rcases List.mem_cons.mp hm with he | hr
      · left
        have : fn = f0 := congrArg Prod.fst he
        rw [this]
        exact h0
      · exact ih gi items p h fn v hr
    · rw [if_neg h0] at h
      cases hfd : pyLookup fd (some f0) with
      | none => rw [hfd] at h; cases h
      | some fs =>
        rw [hfd] at h
        dsimp only at h
        rcases List.mem_cons.mp hm with he | hr
        · right
          have : fn = f0 := congrArg Prod.fst he
          rw [this, hfd]
          rfl
        · have hrec : ∃ items2, processAI fd rest (pyInsert gi f0 v0) items2 = Except.ok p := by
            by_cases hns : fs.options.filter (fun opt => !(pyOptValEq opt v0)) = []
            · rw [if_pos hns] at h
              exact ⟨_, h⟩
            · rw [if_neg hns] at h
              by_cases ha : (fs.options.filter (fun opt => !(pyOptValEq opt v0))).any Option.isNone = true
              · rw [if_pos ha] at h; cases h
              · rw [if_neg ha] at h
                exact ⟨_, h⟩
          obtain ⟨items2, hrec⟩ := hrec
          rcases ih (pyInsert gi f0 v0) items2 p hrec fn v hr with hl | hrt
          · rw [pyLookup_pyInsert] at hl
            by_cases hfn : fn = f0
            · right
              rw [hfn, hfd]
              rfl
            · left
              rw [if_neg hfn] at hl
              exact hl
          · right; exact hrt

theorem processAI_preserve (fd : FormData) (kvs : List (String × PyVal)) :
    ∀ gi items gi2 items2 w fn, pyLookup gi fn = some w →
    processAI fd kvs gi items = Except.ok (gi2, items2) → pyLookup gi2 fn = some w := by
  induction kvs with
  | nil =>
    intro gi items gi2 items2 w fn hw h
    simp only [processAI] at h
    cases h
    exact hw
  | cons kv rest ih =>
    obtain ⟨f0, v0⟩ := kv
    intro gi items gi2 items2 w fn hw h
    simp only [processAI] at h
    by_cases h0 : (pyLookup gi f0).isSome = true
    · rw [if_pos h0] at h
      exact ih gi items gi2 items2 w fn hw h
    · rw [if_neg h0] at h
      cases hfd : pyLookup fd (some f0) with
      | none => rw [hfd] at h; cases h
      | some fs =>
        rw [hfd] at h
        dsimp only at h
        have hne : f0 ≠ fn := by
          intro he
          rw [he, hw] at h0
          exact h0 rfl
        have hw2 : pyLookup (pyInsert gi f0 v0) fn = some w := by
          rw [pyLookup_pyInsert, if_neg (fun he => hne he.symm)]
          exact hw
        by_cases hns : fs.options.filter (fun opt => !(pyOptValEq opt v0)) = []
        · rw [if_pos hns] at h
          exact ih _ _ _ _ w fn hw2 h
        · rw [if_neg hns] at h
          by_cases ha : (fs.options.filter (fun opt => !(pyOptValEq opt v0))).any Option.isNone = true
          · rw [if_pos ha] at h; cases h
          · rw [if_neg ha] at h
            exact ih _ _ _ _ w fn hw2 h


/-!
Lemmas about the fill loop.
-/

theorem fillStep_checkboxes_cases (fd : FormData) (st : PageState) (fm : String)
    (vm : PyVal) (st2 : PageState) (h : fillStep fd st fm vm = Except.ok st2) :
    st2.checkboxes = st.checkboxes ∨ ∃ b : Bool, st2.checkboxes = pyInsert st.checkboxes fm b := by
  unfold fillStep at h
  cases hfd : pyLookup fd (some fm) with
  | none =>
    rw [hfd] at h
    cases h
    exact Or.inl rfl
  | some fs =>
    rw [hfd] at h
    dsimp only at h
    by_cases h1 : fs.type = "text" ∨ fs.type = "email" ∨ fs.type = "tel"
    · rw [if_pos h1] at h
      cases h
      by_cases hmem : fm ∈ st.textEls
      · rw [if_pos hmem]; exact Or.inl rfl
      · rw [if_neg hmem]; exact Or.inl rfl
    · rw [if_neg h1] at h
      by_cases h2 : fs.type = "select"
      · rw [if_pos h2] at h
        cases hse : pyLookup st.selectEls fm with
        | none => rw [hse] at h; cases h; exact Or.inl rfl
        | some opts =>
          rw [hse] at h
          dsimp only at h
          by_cases hmem : pyValStr vm ∈ opts
          · rw [if_pos hmem] at h; cases h; exact Or.inl rfl
          · rw [if_neg hmem] at h; cases h
      · rw [if_neg h2] at h
        by_cases h3 : fs.type = "radio"
        · rw [if_pos h3] at h
          cases hra : pyLookup st.radioEls fm with
          | none => rw [hra] at h; cases h; exact Or.inl rfl
          | some vals =>
            rw [hra] at h
            dsimp only at h
            by_cases hmem : pyValStr vm ∈ vals
            · rw [if_pos hmem] at h; cases h; exact Or.inl rfl
            · rw [if_neg hmem] at h; cases h; exact Or.inl rfl
        · rw [if_neg h3] at h
          by_cases h4 : fs.type = "checkbox"
          · rw [if_pos h4] at h
            cases hcb : pyLookup st.checkboxes fm with
            | none => rw [hcb] at h; cases h; exact Or.inl rfl
            | some sel =>
              rw [hcb] at h
              dsimp only at h
              by_cases h5 : fs.purpose = some "agreement"
              · rw [if_pos h5] at h
                cases h
                cases sel with
                | true => rw [if_pos rfl]; exact Or.inl rfl
                | false =>
                  rw [if_neg (by decide : ¬(false = true))]
                  exact Or.inr ⟨true, rfl⟩
              · rw [if_neg h5] at h
                cases h
                by_cases h6 : (pyTruthyVal vm && !sel) = true
                · rw [if_pos h6]; exact Or.inr ⟨true, rfl⟩
                · rw [if_neg h6]
                  by_cases h7 : (!(pyTruthyVal vm) && sel) = true
                  · rw [if_pos h7]; exact Or.inr ⟨false, rfl⟩
                  · rw [if_neg h7]; exact Or.inl rfl
          · rw [if_neg h4] at h
            by_cases h8 : fs.type = "textarea"
            · rw [if_pos h8] at h
              cases h
              by_cases hmem : fm ∈ st.textEls
              · rw [if_pos hmem]; exact Or.inl rfl
              · rw [if_neg hmem]; exact Or.inl rfl
            · rw [if_neg h8] at h
              cases h
              exact Or.inl rfl

theorem fillStep_agreement (fd : FormData) (st : PageState) (fn : String) (v : PyVal)
    (st2 : PageState) (fs : FieldSpec) (sel : Bool)
    (hfd : pyLookup fd (some fn) = some fs)
    (ht : fs.type = "checkbox")
    (hp : fs.purpose = some "agreement")
    (hpres : pyLookup st.checkboxes fn = some sel)
    (h : fillStep fd st fn v = Except.ok st2) :
    pyLookup st2.checkboxes fn = some true := by
  unfold fillStep at h
  rw [hfd] at h
  dsimp only at h
  rw [ht] at h
  rw [if_neg (by decide : ¬(("checkbox" : String) = "text" ∨ ("checkbox" : String) = "email" ∨ ("checkbox" : String) = "tel"))] at h
  rw [if_neg (by decide : ¬("checkbox" : String) = "select")] at h
  rw [if_neg (by decide : ¬("checkbox" : String) = "radio")] at h
  rw [if_pos (rfl : ("checkbox" : String) = "checkbox")] at h
  rw [hpres] at h
  dsimp only at h
  rw [if_pos hp] at h
  cases sel with
  | true =>
    rw [if_pos rfl] at h
    cases h
    exact hpres
  | false =>
    rw [if_neg (by decide : ¬(false = true))] at h
    cases h
    simp [pyLookup_pyInsert]

theorem fill_run_true (fd : FormData) (fn : String) (fs : FieldSpec)
    (hfd : pyLookup fd (some fn) = some fs) (ht : fs.type = "checkbox")
    (hp : fs.purpose = some "agreement") :
    ∀ (l : List (String × PyVal)) (st : PageState),
      pyLookup st.checkboxes fn = some true →
      pyLookup (fill_form fd l st).1.checkboxes fn = some true := by
  intro l
  induction l with
  | nil => intro st hst; exact hst
  | cons kv rest ih =>
    intro st hst
    obtain ⟨fm, vm⟩ := kv
    simp only [fill_form]
    cases hstep : fillStep fd st fm vm with
    | error e => exact hst
    | ok stB =>
      dsimp only
      apply ih
      by_cases hfm : fm = fn
      · subst hfm
        exact fillStep_agreement fd st fm vm stB fs true hfd ht hp hst hstep
      · rcases fillStep_checkboxes_cases fd st fm vm stB hstep with hc | ⟨b, hc⟩
        · rw [hc]; exact hst
        · rw [hc, pyLookup_pyInsert, if_neg (fun he => hfm he.symm)]; exact hst

theorem fill_run_complete (fd : FormData) (fn : String) (fs : FieldSpec)
    (hfd : pyLookup fd (some fn) = some fs) (ht : fs.type = "checkbox")
    (hp : fs.purpose = some "agreement") :
    ∀ (l : List (String × PyVal)) (st : PageState) (v : PyVal) (b : Bool),
      (fn, v) ∈ l → pyLookup st.checkboxes fn = some b →
      (fill_form fd l st).2 = none →
      pyLookup (fill_form fd l st).1.checkboxes fn = some true := by
  intro l
  induction l with
  | nil => intro st v b hm; cases hm
  | cons kv rest ih =>
    intro st v b hm hpres hdone
    obtain ⟨fm, vm⟩ := kv
    simp only [fill_form] at hdone ⊢
    cases hstep : fillStep fd st fm vm with
    | error e =>
      rw [hstep] at hdone
      cases hdone
    | ok stB =>
      rw [hstep] at hdone
      dsimp only at hdone ⊢
      rcases List.mem_cons.mp hm with he | hr
      · have hfm : fm = fn := (congrArg Prod.fst he).symm
        subst hfm
        have hB : pyLookup stB.checkboxes fm = some true :=
          fillStep_agreement fd st fm vm stB fs b hfd ht hp hpres hstep
        exact fill_run_true fd fm fs hfd ht hp rest stB hB
      · have hpresB : ∃ b2, pyLookup stB.checkboxes fn = some b2 := by
          by_cases hfm : fm = fn
          · subst hfm
            exact ⟨true, fillStep_agreement fd st fm vm stB fs b hfd ht hp hpres hstep⟩
          · rcases fillStep_checkboxes_cases fd st fm vm stB hstep with hc | ⟨bb, hc⟩
            · exact ⟨b, hc ▸ hpres⟩
            · rw [hc, pyLookup_pyInsert, if_neg (fun he => hfm he.symm)]
              exact ⟨b, hpres⟩
        obtain ⟨b2, hpresB⟩ := hpresB
        exact ih stB v b2 hr hpresB hdone

/-!
Lemmas about the textarea phase of extract_form_data.
-/

theorem textareaStep_captcha_self (d : FormData) (t : TextareaEl) (n : String)
    (hn : t.name = some n) (hne : n ≠ "") (hc : isCaptchaName n = true) :
    textareaStep d t = pyInsert d (some n) { type := "captcha", required := true } := by
  unfold textareaStep
  rw [hn]
  have htr : pyTruthyOptStr (some n) = true := by simp [pyTruthyOptStr, hne]
  simp only [htr, hc, Bool.and_self, if_pos]

theorem textareaStep_other (d : FormData) (t : TextareaEl) (n : String)
    (hne : t.name ≠ some n) :
    pyLookup (textareaStep d t) (some n) = pyLookup d (some n) := by
  unfold textareaStep
  cases htn : t.name with
  | none => simp [pyTruthyOptStr]
  | some m =>
    have hmn : some m ≠ (some n : Option String) := htn ▸ hne
    dsimp only
    by_cases hcap : pyTruthyOptStr (some m) && isCaptchaName m
    · rw [if_pos hcap, pyLookup_pyInsert, if_neg (fun he => hmn he.symm)]
    · rw [if_neg hcap]
      by_cases hm0 : m = ""
      · rw [if_pos hm0]
      · rw [if_neg hm0, pyLookup_pyInsert, if_neg (fun he => hmn he.symm)]

theorem textarea_fold_preserve (n : String) (hne : n ≠ "") (hc : isCaptchaName n = true) :
    ∀ (ts : List TextareaEl) (d : FormData),
      pyLookup d (some n) = some { type := "captcha", required := true } →
      pyLookup (ts.foldl textareaStep d) (some n) =
        some { type := "captcha", required := true } := by
  intro ts
  induction ts with
  | nil => intro d h; exact h
  | cons t rest ih =>
    intro d h
    simp only [List.foldl_cons]
    apply ih
    by_cases htn : t.name = some n
    · rw [textareaStep_captcha_self d t n htn hne hc, pyLookup_pyInsert, if_pos rfl]
    · rw [textareaStep_other d t n htn]
      exact h

theorem textarea_fold_writes (n : String) (hne : n ≠ "") (hc : isCaptchaName n = true) :
    ∀ (ts : List TextareaEl) (d : FormData), (∃ t ∈ ts, t.name = some n) →
      pyLookup (ts.foldl textareaStep d) (some n) =
        some { type := "captcha", required := true } := by
  intro ts
  induction ts with
  | nil =>
    rintro d ⟨t, hm, _⟩
    cases hm
  | cons t0 rest ih =>
    rintro d ⟨t, hm, htn⟩
    simp only [List.foldl_cons]
    rcases List.mem_cons.mp hm with he | hr
    · refine textarea_fold_preserve n hne hc rest _ ?_
      rw [textareaStep_captcha_self d t0 n (he ▸ htn) hne hc, pyLookup_pyInsert, if_pos rfl]
    · exact ih _ ⟨t, hr, htn⟩

/-!
Claim theorems.
-/

/-- C1, counterexample: a text input named captcha_code matches the
CAPTCHA-token pattern but extract_form_data classifies it as kind text,
not captcha, and generate_form_input still sends it to generation. -/
theorem C1_counterexample :
    (pyLookup (extract_form_data { inputs := [{ type := "text", name := some "captcha_code" }] })
        (some "captcha_code") = some { type := "text" }) ∧
    isCaptchaName "captcha_code" = true ∧
    ("text" : String) ≠ "captcha" ∧
    ((generate_form_input
        (extract_form_data { inputs := [{ type := "text", name := some "captcha_code" }] })
        [] "X" none AIOutcome.noJsonMatch).aiRequest =
      some [(some "captcha_code", { type := "text" })]) :=
  ⟨rfl, by decide, by decide, rfl⟩

/-- C1 (amended): only a textarea whose name matches the CAPTCHA-token
pattern is classified kind captcha (with required true), and
generate_form_input removes exactly the field named
g-recaptcha-response from the catalog before resolution, so that field
never appears in a generation request; captcha-named fields of other
kinds are neither reclassified nor excluded. -/
theorem C1_captcha_textarea_classification_and_exact_exclusion
    (snap : FormSnapshot) (n : String)
    (fd0 : FormData) (m : Mappings) (c : String) (ic : Option String) (ai : AIOutcome)
    (L : FormData)
    (hne : n ≠ "") (hcap : isCaptchaName n = true)
    (hta : ∃ t ∈ snap.textareas, t.name = some n)
    (hnd : (fd0.map Prod.fst).Nodup)
    (hreq : (generate_form_input fd0 m c ic ai).aiRequest = some L) :
    pyLookup (extract_form_data snap) (some n) =
      some { type := "captcha", required := true } ∧
    pyLookup L (some "g-recaptcha-response") = none := by
  constructor
  · unfold extract_form_data
    exact textarea_fold_writes n hne hcap snap.textareas _ hta
  · have hL : L = (pyDelete fd0 (some "g-recaptcha-response")).filter
        (fun kv => decide (kv.1 ≠ some "inquiry_content")) := by
      unfold generate_form_input at hreq
      cases hm : pyLookup m c with
      | some recs =>
        rw [hm] at hreq
        dsimp only at hreq
        cases hreq
      | none =>
        rw [hm] at hreq
        dsimp only at hreq
        by_cases hemp : (pyDelete fd0 (some "g-recaptcha-response")).filter
            (fun kv => decide (kv.1 ≠ some "inquiry_content")) = []
        · rw [if_pos hemp] at hreq
          cases hreq
        · rw [if_neg hemp] at hreq
          cases ai with
          | callFailed =>
            dsimp only at hreq
            cases hreq
            rfl
          | noJsonMatch =>
            dsimp only at hreq
            cases hreq
            rfl
          | jsonDecodeError =>
            dsimp only at hreq
            cases hreq
            rfl
          | parsed kvs =>
            dsimp only at hreq
            cases hp : processAI (pyDelete fd0 (some "g-recaptcha-response")) kvs
                (if pyTruthyOptStr ic = true then
                  pyInsert [] "inquiry_content" (PyVal.pyStr (ic.getD "")) else []) [] with
            | ok p =>
              rw [hp] at hreq
              obtain ⟨gi2, items2⟩ := p
              dsimp only at hreq
              cases hreq
              rfl
            | error e =>
              rw [hp] at hreq
              dsimp only at hreq
              cases hreq
              rfl
    rw [hL]
    exact pyLookup_filter_none _ _ _ (pyLookup_pyDelete_self fd0 _ hnd)

/-- C1, witness: the amended theorem applied to a textarea named
captcha and a one-field catalog. -/
theorem C1_witness :
    ("captcha" : String) ≠ "" ∧ isCaptchaName "captcha" = true ∧
    (∃ t ∈ ([{ name := some "captcha" }] : List TextareaEl), t.name = some "captcha") ∧
    (pyLookup (extract_form_data { textareas := [{ name := some "captcha" }] })
        (some "captcha") = some { type := "captcha", required := true } ∧
      pyLookup [(some "email", ({ type := "email" } : FieldSpec))]
        (some "g-recaptcha-response") = none) :=
  ⟨by decide, by decide, by decide,
    C1_captcha_textarea_classification_and_exact_exclusion
      { textareas := [{ name := some "captcha" }] } "captcha"
      [(some "email", { type := "email" })] [] "X" none AIOutcome.noJsonMatch
      [(some "email", { type := "email" })]
      (by decide) (by decide) (by decide) (by decide) rfl⟩

/-- C2: on a cache hit, generate_form_input issues no generative
request, returns status input_from_existing_mapping, an empty list of
new mapping records, and binds exactly the cached records values under
their field names with provenance CSVからのマッピング. -/
theorem C2_cache_hit_request_free
    (fd : FormData) (m : Mappings) (c : String)
    (ic : Option String) (ai : AIOutcome) (recs : List FieldInfo)
    (hm : pyLookup m c = some recs)
    (hnd : (recs.map FieldInfo.name).Nodup) :
    (generate_form_input fd m c ic ai).aiRequest = none ∧
    (generate_form_input fd m c ic ai).generate_status = "input_from_existing_mapping" ∧
    (generate_form_input fd m c ic ai).generate_item = some [] ∧
    ∃ gi, (generate_form_input fd m c ic ai).generated_input = some gi ∧
      (∀ r ∈ recs, pyLookup gi r.name = some (PyVal.pyStr r.value) ∧
        pyLookup (generate_form_input fd m c ic ai).field_sources r.name =
          some "CSVからのマッピング") ∧
      (∀ fn w, pyLookup gi fn = some w → ∃ r ∈ recs, r.name = fn) := by
  unfold generate_form_input
  rw [hm]
  dsimp only
  have hfold : ∀ (v : FieldInfo → PyVal),
      recs.foldl (fun d r2 => pyInsert d r2.name (v r2)) [] =
        (recs.map (fun r2 => (r2.name, v r2))).foldl (fun d kv => pyInsert d kv.1 kv.2) [] := by
    intro v
    rw [List.foldl_map]
  have hnd2 : ∀ (v : FieldInfo → PyVal),
      ((recs.map (fun r2 => (r2.name, v r2))).map Prod.fst).Nodup := by
    intro v
    rw [List.map_map]
    exact hnd
  refine ⟨rfl, rfl, rfl, _, rfl, ?_, ?_⟩
  · intro r hr
    constructor
    · rw [hfold (fun r2 => PyVal.pyStr r2.value), pyLookup_foldl_pyInsert,
          lastVal_of_mem_nodup _ _ _ (hnd2 (fun r2 => PyVal.pyStr r2.value))
            (List.mem_map_of_mem _ hr)]
      rfl
    · have hfoldS : recs.foldl (fun d r2 => pyInsert d r2.name "CSVからのマッピング") [] =
          (recs.map (fun r2 => (r2.name, "CSVからのマッピング"))).foldl
            (fun d kv => pyInsert d kv.1 kv.2) [] := by
        rw [List.foldl_map]
      have hnd3 : ((recs.map (fun r2 => (r2.name, "CSVからのマッピング"))).map
          Prod.fst).Nodup := by
        rw [List.map_map]
        exact hnd
      rw [hfoldS, pyLookup_foldl_pyInsert,
          lastVal_of_mem_nodup _ _ _ hnd3 (List.mem_map_of_mem _ hr)]
      rfl
  · intro fn w hw
    rw [hfold (fun r2 => PyVal.pyStr r2.value), pyLookup_foldl_pyInsert] at hw
    cases hl : lastVal (recs.map (fun r2 => (r2.name, PyVal.pyStr r2.value))) fn with
    | none =>
      rw [hl] at hw
      cases hw
    | some v =>
      have := lastVal_isSome_mem _ _ _ hl
      rw [List.map_map] at this
      obtain ⟨r, hr, he⟩ := List.mem_map.mp this
      exact ⟨r, hr, he⟩

/-- C2, witness: the cache-hit theorem applied to a two-record
mapping. -/
theorem C2_witness :
    (pyLookup [("ACME", [({ name := "email", value := "a@b.c" } : FieldInfo),
        { name := "full_name", value := "Alice" }])] "ACME" =
      some [{ name := "email", value := "a@b.c" }, { name := "full_name", value := "Alice" }]) ∧
    (((([{ name := "email", value := "a@b.c" },
        { name := "full_name", value := "Alice" }] : List FieldInfo)).map
      FieldInfo.name).Nodup) ∧
    ((generate_form_input [] [("ACME", [{ name := "email", value := "a@b.c" },
        { name := "full_name", value := "Alice" }])] "ACME" none
      AIOutcome.noJsonMatch).aiRequest = none ∧
      (generate_form_input [] [("ACME", [{ name := "email", value := "a@b.c" },
          { name := "full_name", value := "Alice" }])] "ACME" none
        AIOutcome.noJsonMatch).generate_status = "input_from_existing_mapping" ∧
      (generate_form_input [] [("ACME", [{ name := "email", value := "a@b.c" },
          { name := "full_name", value := "Alice" }])] "ACME" none
        AIOutcome.noJsonMatch).generate_item = some [] ∧
      ∃ gi, (generate_form_input [] [("ACME", [{ name := "email", value := "a@b.c" },
          { name := "full_name", value := "Alice" }])] "ACME" none
        AIOutcome.noJsonMatch).generated_input = some gi ∧
        (∀ r ∈ ([{ name := "email", value := "a@b.c" },
            { name := "full_name", value := "Alice" }] : List FieldInfo),
          pyLookup gi r.name = some (PyVal.pyStr r.value) ∧
          pyLookup (generate_form_input [] [("ACME", [{ name := "email", value := "a@b.c" },
              { name := "full_name", value := "Alice" }])] "ACME" none
            AIOutcome.noJsonMatch).field_sources r.name = some "CSVからのマッピング") ∧
        (∀ fn w, pyLookup gi fn = some w →
          ∃ r ∈ ([{ name := "email", value := "a@b.c" },
            { name := "full_name", value := "Alice" }] : List FieldInfo), r.name = fn)) :=
  ⟨rfl, by decide,
    C2_cache_hit_request_free [] [("ACME", [{ name := "email", value := "a@b.c" },
        { name := "full_name", value := "Alice" }])] "ACME" none AIOutcome.noJsonMatch
      [{ name := "email", value := "a@b.c" }, { name := "full_name", value := "Alice" }]
      rfl (by decide)⟩

/-- C3, code bug: in a batch of 10 tasks where the third worker raises,
the collection loop of submit_forms does not return 10 results with one
error entry; building the synthetic error result evaluates the name
time, which src/app.py never imports, so the loop aborts with a
NameError.  With no failing worker the loop does return one result per
task. -/
theorem C3_worker_exception_aborts_batch :
    (collectResults (List.replicate 2 (Except.ok ({ status := "success" } : TaskResult)) ++
        Except.error "boom" ::
          List.replicate 7 (Except.ok ({ status := "success" } : TaskResult))) =
      Except.error (PyExn.nameError "time")) ∧
    collectResults (List.replicate 10 (Except.ok ({ status := "success" } : TaskResult))) =
      Except.ok (List.replicate 10 { status := "success" }) :=
  ⟨rfl, rfl⟩

/-- C4: when the company has no cached mapping, some field needs
generation, and the generative round trip fails (the call raises, the
answer holds no JSON block, or json.loads raises), generate_form_input
returns a None result set, status input_generation_failed, and a None
generate_item list, so no FieldMapping records are produced. -/
theorem C4_generation_failure_terminal
    (fd0 : FormData) (m : Mappings) (c : String) (ic : Option String) (ai : AIOutcome)
    (hm : pyLookup m c = none)
    (hneed : (pyDelete fd0 (some "g-recaptcha-response")).filter
        (fun kv => decide (kv.1 ≠ some "inquiry_content")) ≠ [])
    (hfail : ai = AIOutcome.callFailed ∨ ai = AIOutcome.noJsonMatch ∨
      ai = AIOutcome.jsonDecodeError) :
    (generate_form_input fd0 m c ic ai).generated_input = none ∧
    (generate_form_input fd0 m c ic ai).generate_status = "input_generation_failed" ∧
    (generate_form_input fd0 m c ic ai).generate_item = none := by
  unfold generate_form_input
  rw [hm]
  dsimp only
  rw [if_neg hneed]
  rcases hfail with h | h | h <;> subst h <;> exact ⟨rfl, rfl, rfl⟩

/-- C4, witness: the generation-failure theorem applied to a one-field
catalog and a response with no JSON block. -/
theorem C4_witness :
    ((pyDelete [(some "email", ({ type := "email" } : FieldSpec))]
        (some "g-recaptcha-response")).filter
      (fun kv => decide (kv.1 ≠ some "inquiry_content")) ≠ []) ∧
    ((generate_form_input [(some "email", { type := "email" })] [] "X" none
        AIOutcome.noJsonMatch).generated_input = none ∧
      (generate_form_input [(some "email", { type := "email" })] [] "X" none
        AIOutcome.noJsonMatch).generate_status = "input_generation_failed" ∧
      (generate_form_input [(some "email", { type := "email" })] [] "X" none
        AIOutcome.noJsonMatch).generate_item = none) :=
  ⟨by decide,
    C4_generation_failure_terminal [(some "email", { type := "email" })] [] "X" none
      AIOutcome.noJsonMatch rfl (by decide) (Or.inr (Or.inl rfl))⟩

/-- C5, counterexample: for the catalog full_name/email/message with
supplied content, generate_form_input keeps message in the generation
request, gives message no provenance entry, and binds the content under
the fixed key inquiry_content, which is not a catalog field. -/
theorem C5_counterexample :
    ((generate_form_input
        [(some "full_name", { type := "text", required := true }),
         (some "email", { type := "email", required := true }),
         (some "message", { type := "textarea", required := true })]
        [] "ACME" (some "Please contact us.")
        (AIOutcome.parsed [("full_name", PyVal.pyStr "x"), ("email", PyVal.pyStr "y"),
          ("message", PyVal.pyStr "z")])).aiRequest =
      some [(some "full_name", { type := "text", required := true }),
        (some "email", { type := "email", required := true }),
        (some "message", { type := "textarea", required := true })]) ∧
    (pyLookup (generate_form_input
        [(some "full_name", { type := "text", required := true }),
         (some "email", { type := "email", required := true }),
         (some "message", { type := "textarea", required := true })]
        [] "ACME" (some "Please contact us.")
        (AIOutcome.parsed [("full_name", PyVal.pyStr "x"), ("email", PyVal.pyStr "y"),
          ("message", PyVal.pyStr "z")])).field_sources "message" = none) ∧
    (pyLookup (generate_form_input
        [(some "full_name", { type := "text", required := true }),
         (some "email", { type := "email", required := true }),
         (some "message", { type := "textarea", required := true })]
        [] "ACME" (some "Please contact us.")
        (AIOutcome.parsed [("full_name", PyVal.pyStr "x"), ("email", PyVal.pyStr "y"),
          ("message", PyVal.pyStr "z")])).field_sources "inquiry_content" =
      some "CSVからの入力") ∧
    (pyLookup [(some "full_name", ({ type := "text", required := true } : FieldSpec)),
        (some "email", { type := "email", required := true }),
        (some "message", { type := "textarea", required := true })]
      (some "inquiry_content") = none) :=
  ⟨rfl, rfl, rfl, rfl⟩

/-- C5 (amended): on the no-cache path with a non-empty supplied
content, generate_form_input binds the content under the fixed key
inquiry_content with provenance CSVからの入力, excludes only a catalog
field literally named inquiry_content from the generation request
(every other catalog field stays in it), and on a successful parse the
inquiry_content binding survives the response loop. -/
theorem C5_supplied_content_fixed_key
    (fd0 : FormData) (m : Mappings) (c : String) (content : String) (ai : AIOutcome)
    (hm : pyLookup m c = none) (hc : content ≠ "")
    (hneed : (pyDelete fd0 (some "g-recaptcha-response")).filter
        (fun kv => decide (kv.1 ≠ some "inquiry_content")) ≠ []) :
    (generate_form_input fd0 m c (some content) ai).field_sources =
      [("inquiry_content", "CSVからの入力")] ∧
    (generate_form_input fd0 m c (some content) ai).aiRequest =
      some ((pyDelete fd0 (some "g-recaptcha-response")).filter
        (fun kv => decide (kv.1 ≠ some "inquiry_content"))) ∧
    (∀ kv ∈ pyDelete fd0 (some "g-recaptcha-response"), kv.1 ≠ some "inquiry_content" →
      ∀ L, (generate_form_input fd0 m c (some content) ai).aiRequest = some L → kv ∈ L) ∧
    (∀ gi, (generate_form_input fd0 m c (some content) ai).generated_input = some gi →
      pyLookup gi "inquiry_content" = some (PyVal.pyStr content)) := by
  unfold generate_form_input
  rw [hm]
  dsimp only [Option.getD_some]
  have hpos : pyTruthyOptStr (some content) = true := by
    simp [pyTruthyOptStr, hc]
  rw [if_pos hpos, if_pos hpos, if_neg hneed]
  have hw : pyLookup (pyInsert ([] : List (String × PyVal)) "inquiry_content"
      (PyVal.pyStr content)) "inquiry_content" = some (PyVal.pyStr content) := rfl
  cases ai with
  | callFailed =>
    refine ⟨rfl, rfl, ?_, ?_⟩
    · intro kv hkv hne L hL
      cases hL
      exact List.mem_filter.mpr ⟨hkv, decide_eq_true hne⟩
    · intro gi hgi
      cases hgi
  | noJsonMatch =>
    refine ⟨rfl, rfl, ?_, ?_⟩
    · intro kv hkv hne L hL
      cases hL
      exact List.mem_filter.mpr ⟨hkv, decide_eq_true hne⟩
    · intro gi hgi
      cases hgi
  | jsonDecodeError =>
    refine ⟨rfl, rfl, ?_, ?_⟩
    · intro kv hkv hne L hL
      cases hL
      exact List.mem_filter.mpr ⟨hkv, decide_eq_true hne⟩
    · intro gi hgi
      cases hgi
  | parsed kvs =>
    dsimp only
    cases hp : processAI (pyDelete fd0 (some "g-recaptcha-response")) kvs
        (pyInsert [] "inquiry_content" (PyVal.pyStr content)) [] with
    | error e =>
      dsimp only
      refine ⟨rfl, rfl, ?_, ?_⟩
      · intro kv hkv hne L hL
        cases hL
        exact List.mem_filter.mpr ⟨hkv, decide_eq_true hne⟩
      · intro gi hgi
        cases hgi
    | ok p =>
      obtain ⟨gi2, items2⟩ := p
      dsimp only
      refine ⟨rfl, rfl, ?_, ?_⟩
      · intro kv hkv hne L hL
        cases hL
        exact List.mem_filter.mpr ⟨hkv, decide_eq_true hne⟩
      · intro gi hgi
        cases hgi
        exact processAI_preserve _ kvs _ [] gi2 items2 (PyVal.pyStr content)
          "inquiry_content" hw hp

/-- C5, witness: the amended supplied-content theorem applied to the
full_name/email/message catalog of the spec scenario. -/
theorem C5_witness :
    ("Please contact us." : String) ≠ "" ∧
    ((pyDelete [(some "full_name", ({ type := "text", required := true } : FieldSpec)),
          (some "email", { type := "email", required := true }),
          (some "message", { type := "textarea", required := true })]
        (some "g-recaptcha-response")).filter
      (fun kv => decide (kv.1 ≠ some "inquiry_content")) ≠ []) ∧
    ((generate_form_input
        [(some "full_name", { type := "text", required := true }),
         (some "email", { type := "email", required := true }),
         (some "message", { type := "textarea", required := true })]
        [] "ACME" (some "Please contact us.")
        (AIOutcome.parsed [("full_name", PyVal.pyStr "x")])).field_sources =
      [("inquiry_content", "CSVからの入力")] ∧
      (generate_form_input
        [(some "full_name", { type := "text", required := true }),
         (some "email", { type := "email", required := true }),
         (some "message", { type := "textarea", required := true })]
        [] "ACME" (some "Please contact us.")
        (AIOutcome.parsed [("full_name", PyVal.pyStr "x")])).aiRequest =
        some ((pyDelete [(some "full_name", { type := "text", required := true }),
            (some "email", { type := "email", required := true }),
            (some "message", { type := "textarea", required := true })]
          (some "g-recaptcha-response")).filter
            (fun kv => decide (kv.1 ≠ some "inquiry_content"))) ∧
      (∀ kv ∈ pyDelete [(some "full_name",
            ({ type := "text", required := true } : FieldSpec)),
          (some "email", { type := "email", required := true }),
          (some "message", { type := "textarea", required := true })]
          (some "g-recaptcha-response"), kv.1 ≠ some "inquiry_content" →
        ∀ L, (generate_form_input
            [(some "full_name", { type := "text", required := true }),
             (some "email", { type := "email", required := true }),
             (some "message", { type := "textarea", required := true })]
            [] "ACME" (some "Please contact us.")
            (AIOutcome.parsed [("full_name", PyVal.pyStr "x")])).aiRequest = some L →
          kv ∈ L) ∧
      (∀ gi, (generate_form_input
          [(some "full_name", { type := "text", required := true }),
           (some "email", { type := "email", required := true }),
           (some "message", { type := "textarea", required := true })]
          [] "ACME" (some "Please contact us.")
          (AIOutcome.parsed [("full_name", PyVal.pyStr "x")])).generated_input = some gi →
        pyLookup gi "inquiry_content" = some (PyVal.pyStr "Please contact us."))) :=
  ⟨by decide, by decide,
    C5_supplied_content_fixed_key
      [(some "full_name", { type := "text", required := true }),
       (some "email", { type := "email", required := true }),
       (some "message", { type := "textarea", required := true })]
      [] "ACME" "Please contact us." (AIOutcome.parsed [("full_name", PyVal.pyStr "x")])
      rfl (by decide) (by decide)⟩

/-- C6, counterexample: a parsed response holding the unknown field
extra makes generate_form_input abort the whole synthesis with
input_generation_failed and a None result set, instead of ignoring the
field and resolving full_name. -/
theorem C6_counterexample :
    generate_form_input [(some "full_name", { type := "text" })] [] "ACME" none
        (AIOutcome.parsed [("full_name", PyVal.pyStr "Alice"), ("extra", PyVal.pyStr "x")]) =
      { generated_input := none, field_sources := [],
        generate_status := "input_generation_failed", generate_item := none,
        aiRequest := some [(some "full_name", { type := "text" })] } :=
  rfl

/-- C6 (amended): a parsed response containing a field name that is
absent from the catalog and not already bound makes generate_form_input
fail with status input_generation_failed, a None result set and no new
mapping records (the KeyError of the lookup lands in the generic
handler); no selector is fabricated, and at the fill step a resolved
name absent from the catalog is skipped without error. -/
theorem C6_unknown_response_field_aborts_synthesis
    (fd0 : FormData) (m : Mappings) (c : String) (ic : Option String)
    (kvs : List (String × PyVal)) (fn : String) (v : PyVal)
    (hm : pyLookup m c = none)
    (hneed : (pyDelete fd0 (some "g-recaptcha-response")).filter
        (fun kv => decide (kv.1 ≠ some "inquiry_content")) ≠ [])
    (hmem : (fn, v) ∈ kvs)
    (hfn : fn ≠ "inquiry_content")
    (hnotin : pyLookup (pyDelete fd0 (some "g-recaptcha-response")) (some fn) = none) :
    (generate_form_input fd0 m c ic (AIOutcome.parsed kvs)).generated_input = none ∧
    (generate_form_input fd0 m c ic (AIOutcome.parsed kvs)).generate_status =
      "input_generation_failed" ∧
    (generate_form_input fd0 m c ic (AIOutcome.parsed kvs)).generate_item = none ∧
    (∀ st v2, fillStep (pyDelete fd0 (some "g-recaptcha-response")) st fn v2 =
      Except.ok st) := by
  have hfill : ∀ (st : PageState) (v2 : PyVal),
      fillStep (pyDelete fd0 (some "g-recaptcha-response")) st fn v2 = Except.ok st := by
    intro st v2
    unfold fillStep
    rw [hnotin]
  unfold generate_form_input
  rw [hm]
  dsimp only
  rw [if_neg hneed]
  have hgi0 : pyLookup (if pyTruthyOptStr ic = true then
      pyInsert [] "inquiry_content" (PyVal.pyStr (ic.getD "")) else []) fn = none := by
    by_cases h : pyTruthyOptStr ic = true
    · rw [if_pos h]
      simp only [pyInsert, pyLookup]
      rw [if_neg (fun he : "inquiry_content" = fn => hfn he.symm)]
    · rw [if_neg h]
      rfl
  have hng : ∀ p, processAI (pyDelete fd0 (some "g-recaptcha-response")) kvs
      (if pyTruthyOptStr ic = true then
        pyInsert [] "inquiry_content" (PyVal.pyStr (ic.getD "")) else []) [] ≠
      Except.ok p := by
    intro p hp
    rcases processAI_ok_keys _ kvs _ [] p hp fn v hmem with h1 | h2
    · rw [hgi0] at h1
      cases h1
    · rw [hnotin] at h2
      cases h2
  cases hp : processAI (pyDelete fd0 (some "g-recaptcha-response")) kvs
      (if pyTruthyOptStr ic = true then
        pyInsert [] "inquiry_content" (PyVal.pyStr (ic.getD "")) else []) [] with
  | ok p => exact absurd hp (hng p)
  | error e => exact ⟨rfl, rfl, rfl, hfill⟩

/-- C6, witness: the amended theorem applied to a one-field catalog and
a response carrying the unknown field extra. -/
theorem C6_witness :
    ((("extra", PyVal.pyStr "x") ∈
      [("full_name", PyVal.pyStr "Alice"), ("extra", PyVal.pyStr "x")]) ∧
      pyLookup (pyDelete [(some "full_name", ({ type := "text" } : FieldSpec))]
        (some "g-recaptcha-response")) (some "extra") = none) ∧
    ((generate_form_input [(some "full_name", { type := "text" })] [] "ACME" none
        (AIOutcome.parsed [("full_name", PyVal.pyStr "Alice"),
          ("extra", PyVal.pyStr "x")])).generated_input = none ∧
      (generate_form_input [(some "full_name", { type := "text" })] [] "ACME" none
        (AIOutcome.parsed [("full_name", PyVal.pyStr "Alice"),
          ("extra", PyVal.pyStr "x")])).generate_status = "input_generation_failed" ∧
      (generate_form_input [(some "full_name", { type := "text" })] [] "ACME" none
        (AIOutcome.parsed [("full_name", PyVal.pyStr "Alice"),
          ("extra", PyVal.pyStr "x")])).generate_item = none ∧
      (∀ st v2, fillStep (pyDelete [(some "full_name", { type := "text" })]
        (some "g-recaptcha-response")) st "extra" v2 = Except.ok st)) :=
  ⟨⟨by decide, rfl⟩,
    C6_unknown_response_field_aborts_synthesis
      [(some "full_name", { type := "text" })] [] "ACME" none
      [("full_name", PyVal.pyStr "Alice"), ("extra", PyVal.pyStr "x")]
      "extra" (PyVal.pyStr "x") rfl (by decide) (by decide) (by decide) rfl⟩

/-- C7, counterexample: with two loaded records for the same
company/field pair, resolution binds the value of the second loaded
record, not of the first loaded match. -/
theorem C7_counterexample :
    ((generate_form_input [] (load_input_mappings
        [{ companyName := "A", name := "email", value := "v1" },
         { companyName := "A", name := "email", value := "v2" }]) "A" none
      AIOutcome.noJsonMatch).generated_input = some [("email", PyVal.pyStr "v2")]) ∧
    (((mLookup (load_input_mappings
        [{ companyName := "A", name := "email", value := "v1" },
         { companyName := "A", name := "email", value := "v2" }]) "A").find?
      (fun r2 => decide (r2.name = "email"))).map FieldInfo.value = some "v1") ∧
    ("v2" : String) ≠ "v1" :=
  ⟨rfl, rfl, by decide⟩

/-- C7 (amended): load keeps every row of the file in order with no
rewriting or deduplication, and resolution binds, for each field name,
the value of the last loaded record with that name, so the most
recently appended record for a company/field pair is authoritative
after a fresh load. -/
theorem C7_last_loaded_match_wins
    (rows : List CsvRow) (c f : String) (recs pre post : List FieldInfo)
    (r : FieldInfo) (fd : FormData) (ic : Option String) (ai : AIOutcome)
    (hm : pyLookup (load_input_mappings rows) c = some recs)
    (hdec : recs = pre ++ r :: post)
    (hr : r.name = f)
    (hpost : ∀ r2 ∈ post, r2.name ≠ f) :
    mLookup (load_input_mappings rows) c =
      (rows.filter (fun row => decide (row.companyName = c))).map rowToFieldInfo ∧
    ∃ gi, (generate_form_input fd (load_input_mappings rows) c ic ai).generated_input =
        some gi ∧
      pyLookup gi f = some (PyVal.pyStr r.value) := by
  refine ⟨mLookup_load rows c, ?_⟩
  unfold generate_form_input
  rw [hm]
  dsimp only
  refine ⟨_, rfl, ?_⟩
  have hfold : recs.foldl (fun d r2 => pyInsert d r2.name (PyVal.pyStr r2.value)) [] =
      (recs.map (fun r2 => (r2.name, PyVal.pyStr r2.value))).foldl
        (fun d kv => pyInsert d kv.1 kv.2) [] := by
    rw [List.foldl_map]
  rw [hfold, pyLookup_foldl_pyInsert]
  subst hdec
  rw [List.map_append, lastVal_append, List.map_cons, lastVal]
  have hnp : lastVal (post.map (fun r2 => (r2.name, PyVal.pyStr r2.value))) f = none := by
    apply lastVal_none_of_not_mem
    intro hmem
    rw [List.map_map] at hmem
    obtain ⟨r2, hr2, he⟩ := List.mem_map.mp hmem
    exact hpost r2 hr2 he
  rw [hnp, hr]
  simp [optOr]

/-- C7, witness: the amended theorem applied to a store carrying two
records for the pair A/email. -/
theorem C7_witness :
    (pyLookup (load_input_mappings
        [{ companyName := "A", name := "email", value := "v1" },
         { companyName := "A", name := "email", value := "v2" }]) "A" =
      some [{ name := "email", value := "v1" }, { name := "email", value := "v2" }]) ∧
    (mLookup (load_input_mappings
        [{ companyName := "A", name := "email", value := "v1" },
         { companyName := "A", name := "email", value := "v2" }]) "A" =
      ([{ companyName := "A", name := "email", value := "v1" },
        ({ companyName := "A", name := "email", value := "v2" } : CsvRow)].filter
          (fun row => decide (row.companyName = "A"))).map rowToFieldInfo ∧
      ∃ gi, (generate_form_input [] (load_input_mappings
          [{ companyName := "A", name := "email", value := "v1" },
           { companyName := "A", name := "email", value := "v2" }]) "A" none
        AIOutcome.noJsonMatch).generated_input = some gi ∧
        pyLookup gi "email" = some (PyVal.pyStr "v2")) :=
  ⟨rfl,
    C7_last_loaded_match_wins
      [{ companyName := "A", name := "email", value := "v1" },
       { companyName := "A", name := "email", value := "v2" }] "A" "email"
      [{ name := "email", value := "v1" }, { name := "email", value := "v2" }]
      [{ name := "email", value := "v1" }] []
      { name := "email", value := "v2" } [] none AIOutcome.noJsonMatch
      rfl rfl rfl (by decide)⟩

/-- C8: for a catalog field classified as an agreement checkbox, the
fill loop always leaves the checkbox checked when it completes on a
page holding that checkbox, whatever the resolved value, and it never
unchecks an agreement checkbox that is already checked. -/
theorem C8_agreement_checkbox_stays_checked
    (fd : FormData) (fn : String) (fs : FieldSpec)
    (hfd : pyLookup fd (some fn) = some fs) (ht : fs.type = "checkbox")
    (hp : fs.purpose = some "agreement") :
    (∀ (gi : List (String × PyVal)) (st : PageState) (v : PyVal) (b : Bool),
      (fn, v) ∈ gi → pyLookup st.checkboxes fn = some b →
      (fill_form fd gi st).2 = none →
      pyLookup (fill_form fd gi st).1.checkboxes fn = some true) ∧
    (∀ (gi : List (String × PyVal)) (st : PageState),
      pyLookup st.checkboxes fn = some true →
      pyLookup (fill_form fd gi st).1.checkboxes fn = some true) :=
  ⟨fun gi st v b hm hpres hdone =>
      fill_run_complete fd fn fs hfd ht hp gi st v b hm hpres hdone,
    fun gi st hst => fill_run_true fd fn fs hfd ht hp gi st hst⟩

/-- C8, witness: the agreement-checkbox theorem applied to an initially
unchecked checkbox resolved with a falsy value. -/
theorem C8_witness :
    pyLookup [((some "agree_terms" : Option String),
        ({ type := "checkbox", purpose := some "agreement" } : FieldSpec))]
      (some "agree_terms") = some { type := "checkbox", purpose := some "agreement" } ∧
    pyLookup (fill_form
        [((some "agree_terms" : Option String),
          { type := "checkbox", purpose := some "agreement" })]
        [("agree_terms", PyVal.pyStr "")]
        { checkboxes := [("agree_terms", false)] }).1.checkboxes "agree_terms" =
      some true :=
  ⟨rfl,
    (C8_agreement_checkbox_stays_checked
      [((some "agree_terms" : Option String),
        { type := "checkbox", purpose := some "agreement" })] "agree_terms"
      { type := "checkbox", purpose := some "agreement" } rfl rfl rfl).1
      [("agree_terms", PyVal.pyStr "")] { checkboxes := [("agree_terms", false)] }
      (PyVal.pyStr "") false (by decide) rfl rfl⟩

/-- C9, code bug: a checkbox input without a name attribute still
creates a catalog entry, keyed None, because the else branch of the
checkbox classification omits the name guard every other branch has. -/
theorem C9_nameless_checkbox_creates_entry :
    extract_form_data { inputs := [{ type := "checkbox" }] } =
      [(none, { type := "checkbox", required := false, value := some none })] := by
  decide

/-- C10: every record written by save_input_mapping is recovered by a
subsequent load of the file under the same company, with equal name,
value and option cells, and with the required flag parsed back to the
original boolean through its True/False serialization. -/
theorem C10_save_load_round_trip
    (prev : List CsvRow) (items : List GenItem) (cid cn uid : String) (g : GenItem)
    (hg : g ∈ items) :
    ∃ fi ∈ mLookup (load_input_mappings (prev ++ save_input_mapping items cid cn uid)) cn,
      fi.name = g.name ∧ fi.value = pyValStr g.value ∧ fi.option = g.option ∧
      fi.required = g.required := by
  rw [mLookup_load, List.filter_append, List.map_append]
  have hkeep : (save_input_mapping items cid cn uid).filter
      (fun row => decide (row.companyName = cn)) = save_input_mapping items cid cn uid := by
    apply List.filter_eq_self.mpr
    intro row hrow
    unfold save_input_mapping at hrow
    obtain ⟨g2, _, he⟩ := List.mem_map.mp hrow
    rw [← he]
    exact decide_eq_true rfl
  rw [hkeep]
  refine ⟨rowToFieldInfo
    { id := uid, companyName := cn, companyId := cid, type := g.type, name := g.name,
      option := g.option, value := pyValStr g.value,
      required := if g.required then "True" else "False",
      max_length := match g.max_length with
        | none => ""
        | some s => if s = "" then "" else s,
      placeholder := match g.placeholder with
        | none => ""
        | some s => s }, ?_, rfl, rfl, rfl, ?_⟩
  · apply List.mem_append_right
    apply List.mem_map_of_mem
    unfold save_input_mapping
    exact List.mem_map_of_mem _ hg
  · unfold rowToFieldInfo
    dsimp only
    cases hb : g.required with
    | true => decide
    | false => decide

/-- C10, witness: the round-trip theorem applied to one generated
select item. -/
theorem C10_witness :
    (({ type := "select", name := "subject", option := "A, B", value := PyVal.pyStr "C",
        required := true } : GenItem) ∈
      [({ type := "select", name := "subject", option := "A, B", value := PyVal.pyStr "C",
          required := true } : GenItem)]) ∧
    ∃ fi ∈ mLookup (load_input_mappings ([] ++ save_input_mapping
        [{ type := "select", name := "subject", option := "A, B", value := PyVal.pyStr "C",
           required := true }] "id1" "ACME" "u1")) "ACME",
      fi.name = "subject" ∧ fi.value = pyValStr (PyVal.pyStr "C") ∧ fi.option = "A, B" ∧
      fi.required = true :=
  ⟨by decide,
    C10_save_load_round_trip []
      [{ type := "select", name := "subject", option := "A, B", value := PyVal.pyStr "C",
         required := true }] "id1" "ACME" "u1"
      { type := "select", name := "subject", option := "A, B", value := PyVal.pyStr "C",
        required := true } (by decide)⟩
